import Mathlib

/-!
Shallow embedding of the OrgFlow GraphQL core (backend/core/schema.py).

The Django ORM state is modelled as an explicit `DB` value holding the four
entity tables; each resolver/mutation from schema.py becomes a pure function
from a `DB` (plus the request actor) to an `Except Err` result, mirroring
Python exceptions with `Except.error`.  The acting user (info.context.user)
is an `Option Nat`: `none` is the anonymous user, `some uid` an authenticated
user id.  Python floats are modelled as rationals (exact for the values the
development reasons about).
-/

namespace OrgFlow

/-- Failures raised by the resolvers: `exc msg` models `raise Exception(msg)`,
`doesNotExist` models an uncaught Django `Model.DoesNotExist`. -/
inductive Err where
  | exc (msg : String)
  | doesNotExist
deriving Repr, DecidableEq

/-- django.contrib.auth User (only the fields the core reads). -/
structure User where
  id : Nat
  username : String
  email : String
deriving Repr, DecidableEq

/-- Organization model: unique slug, optional owner, members m2m (user ids). -/
structure Organization where
  id : Nat
  name : String
  slug : String
  owner : Option Nat
  members : List Nat
deriving Repr, DecidableEq

/-- Project model: belongs to one Organization. -/
structure Project where
  id : Nat
  organizationId : Nat
  name : String
  description : String
  status : String
  dueDate : Option String
deriving Repr, DecidableEq

/-- Task model: belongs to one Project. -/
structure Task where
  id : Nat
  projectId : Nat
  title : String
  description : String
  status : String
  assigneeEmail : Option String
  dueDate : Option String
deriving Repr, DecidableEq

/-- The persistence state: the four tables plus auto-increment counters. -/
structure DB where
  users : List User
  orgs : List Organization
  projects : List Project
  tasks : List Task
  nextUserId : Nat
  nextOrgId : Nat
  nextProjectId : Nat
  nextTaskId : Nat
deriving Repr, DecidableEq

def DB.getOrg? (db : DB) (id : Nat) : Option Organization :=
  db.orgs.find? (fun o => o.id == id)

def DB.getOrgBySlug? (db : DB) (slug : String) : Option Organization :=
  db.orgs.find? (fun o => o.slug == slug)

def DB.getProject? (db : DB) (id : Nat) : Option Project :=
  db.projects.find? (fun p => p.id == id)

def DB.getTask? (db : DB) (id : Nat) : Option Task :=
  db.tasks.find? (fun t => t.id == id)

/-- `task.save()`: write the row back by primary key. -/
def DB.saveTask (db : DB) (t : Task) : DB :=
  { db with tasks := db.tasks.map (fun x => if x.id == t.id then t else x) }

/-- `project.save()`: write the row back by primary key. -/
def DB.saveProject (db : DB) (p : Project) : DB :=
  { db with projects := db.projects.map (fun x => if x.id == p.id then p else x) }

/-- `org.save()`: write the row back by primary key. -/
def DB.saveOrg (db : DB) (o : Organization) : DB :=
  { db with orgs := db.orgs.map (fun x => if x.id == o.id then o else x) }

/-- Characters kept by django.utils.text.slugify: the regex `[^\w\s-]` removes
everything that is not a word character, whitespace or a dash (ASCII case). -/
def slugKeep (c : Char) : Bool :=
  c.isAlphanum || c == '_' || c == '-' || c == ' ' || c == '\t' || c == '\n' || c == '\r'

def slugDash (c : Char) : Bool :=
  c == '-' || c == ' ' || c == '\t' || c == '\n' || c == '\r'

/-- The regex `[-\s]+` replaced by a single dash: collapse every run of dashes
and whitespace to one `-`.  The boolean flag records whether the previous
emitted character closed such a run. -/
def collapseDash : Bool → List Char → List Char
  | _, [] => []
  | prevDash, c :: rest =>
    if slugDash c then
      if prevDash then collapseDash true rest
      else '-' :: collapseDash true rest
    else c :: collapseDash false rest

def stripEdge (c : Char) : Bool := c == '-' || c == '_'

/-- `.strip("-_")`: drop leading and trailing dashes and underscores. -/
def stripDashUnderscore (l : List Char) : List Char :=
  ((l.dropWhile stripEdge).reverse.dropWhile stripEdge).reverse

/-- django.utils.text.slugify (ASCII fragment): lowercase, drop characters
outside `[\w\s-]`, collapse runs of `[-\s]` to a dash, strip edge `-_`. -/
def slugify (s : String) : String :=
  String.mk (stripDashUnderscore (collapseDash false
    ((s.toList.map Char.toLower).filter slugKeep)))

/-- Modelled from the spec: the external token service
(`graphql_jwt.shortcuts.get_token`) issues an opaque token bound to the
user; token mechanics are out of scope, so the token is just a marker. -/
def get_token (u : User) : String := String.append "jwt:" u.username

structure RegisterResult where
  db : DB
  userId : Nat
  orgId : Nat
  token : String
deriving Repr, DecidableEq

/-- Register.mutate: duplicate-username check, create user, join-or-create
the organization by slug, add the member, issue a token. -/
def Register.mutate (db : DB) (username _password email organization_name : String) :
    Except Err RegisterResult :=
  if db.users.any (fun u => u.username == username) then
    .error (.exc "Username already exists")
  else
    let user : User := { id := db.nextUserId, username := username, email := email }
    let db1 : DB := { db with users := db.users ++ [user], nextUserId := db.nextUserId + 1 }
    let slug := slugify organization_name
    match db1.getOrgBySlug? slug with
    | some org =>
      let org2 : Organization :=
        { org with members := if org.members.contains user.id then org.members
                              else org.members ++ [user.id] }
      .ok { db := db1.saveOrg org2, userId := user.id, orgId := org.id,
            token := get_token user }
    | none =>
      let org : Organization :=
        { id := db1.nextOrgId, name := organization_name, slug := slug,
          owner := some user.id, members := [] }
      let db2 : DB := { db1 with orgs := db1.orgs ++ [org], nextOrgId := db1.nextOrgId + 1 }
      let org2 : Organization :=
        { org with members := if org.members.contains user.id then org.members
                              else org.members ++ [user.id] }
      .ok { db := db2.saveOrg org2, userId := user.id, orgId := org.id,
            token := get_token user }

/-- The state after a Register call: on an exception nothing was persisted. -/
def Register.run (db : DB) (u p e n : String) : DB :=
  match Register.mutate db u p e n with
  | .ok r => r.db
  | .error _ => db

/-- Query.resolve_project: raise when anonymous, swallow Project.DoesNotExist
into null, raise Access Denied for a non-member of the project's org. -/
def Query.resolve_project (db : DB) (actor : Option Nat) (id : Nat) :
    Except Err (Option Project) :=
  match actor with
  | none => .error (.exc "Not logged in")
  | some uid =>
    match db.getProject? id with
    | none => .ok none
    | some project =>
      match db.getOrg? project.organizationId with
      | none => .error .doesNotExist
      | some org =>
        if org.members.contains uid then .ok (some project)
        else .error (.exc "Access Denied")

/-- The tasks related to a project (`self.tasks` reverse relation). -/
def DB.projectTasks (db : DB) (p : Project) : List Task :=
  db.tasks.filter (fun t => t.projectId == p.id)

/-- ProjectType.resolve_completion_rate: guard total == 0, else
(completed / total) * 100.  The Python float is modelled as a rational. -/
def ProjectType.resolve_completion_rate (db : DB) (p : Project) : Rat :=
  let total := (db.projectTasks p).length
  if total == 0 then 0
  else
    let completed := ((db.projectTasks p).filter (fun t => t.status == "DONE")).length
    ((completed : Rat) / (total : Rat)) * 100

/-- UpdateTask.mutate: load the task, gate assignee_email behind the
owner-only check, then apply the provided fields and save.  Python
truthiness of `if status:` means both None and the empty string skip the
status write; `description is not None` lets the empty string through;
an empty-string due_date clears the field. -/
def UpdateTask.mutate (db : DB) (actor : Option Nat) (task_id : Nat)
    (status description assignee_email due_date : Option String) :
    Except Err DB :=
  match db.getTask? task_id with
  | none => .error .doesNotExist
  | some task =>
    let step1 : Except Err Task :=
      match assignee_email with
      | none => .ok task
      | some ae =>
        match db.getProject? task.projectId with
        | none => .error .doesNotExist
        | some proj =>
          match db.getOrg? proj.organizationId with
          | none => .error .doesNotExist
          | some org =>
            match org.owner with
            | some ownerId =>
              if actor == some ownerId then .ok { task with assigneeEmail := some ae }
              else .error (.exc "Only the Organization Admin can assign tasks.")
            | none => .ok { task with assigneeEmail := some ae }
    match step1 with
    | .error e => .error e
    | .ok t1 =>
      let t2 := match status with
        | some s => if s == "" then t1 else { t1 with status := s }
        | none => t1
      let t3 := match description with
        | some d => { t2 with description := d }
        | none => t2
      let t4 := match due_date with
        | some dd => { t3 with dueDate := if dd == "" then none else some dd }
        | none => t3
      .ok (db.saveTask t4)

/-- The state after an UpdateTask call: on an exception nothing was saved. -/
def UpdateTask.run (db : DB) (actor : Option Nat) (task_id : Nat)
    (status description assignee_email due_date : Option String) : DB :=
  match UpdateTask.mutate db actor task_id status description assignee_email due_date with
  | .ok db2 => db2
  | .error _ => db

/-- UpdateProject.mutate: load the project, overwrite status, save.  The
actor is never consulted. -/
def UpdateProject.mutate (db : DB) (_actor : Option Nat) (project_id : Nat)
    (status : String) : Except Err DB :=
  match db.getProject? project_id with
  | none => .error .doesNotExist
  | some project => .ok (db.saveProject { project with status := status })

/-- Modelled from the spec: the Task model's default status value (models.py
is not under src; the spec lists TODO as a Task status and says a task is
created with only its title set). -/
def taskDefaultStatus : String := "TODO"

/-- CreateTask.mutate: load the project, create a task carrying only the
title, everything else at its model default.  The actor is never consulted. -/
def CreateTask.mutate (db : DB) (_actor : Option Nat) (project_id : Nat)
    (title : String) : Except Err (DB × Nat) :=
  match db.getProject? project_id with
  | none => .error .doesNotExist
  | some project =>
    let task : Task :=
      { id := db.nextTaskId, projectId := project.id, title := title,
        description := "", status := taskDefaultStatus,
        assigneeEmail := none, dueDate := none }
    .ok ({ db with tasks := db.tasks ++ [task], nextTaskId := db.nextTaskId + 1 },
         task.id)

/-- A concrete organization: owned by user 1 (alice), members 1 and 2. -/
def exOrg : Organization :=
  { id := 1, name := "Acme", slug := "acme", owner := some 1, members := [1, 2] }

def exProj1 : Project :=
  { id := 1, organizationId := 1, name := "Site", description := "",
    status := "open", dueDate := none }

def exProj2 : Project :=
  { id := 2, organizationId := 1, name := "Empty", description := "",
    status := "open", dueDate := none }

def exProj3 : Project :=
  { id := 3, organizationId := 1, name := "Half", description := "",
    status := "open", dueDate := none }

def exTask1 : Task :=
  { id := 1, projectId := 1, title := "T1", description := "d",
    status := "TODO", assigneeEmail := none, dueDate := none }

/-- A concrete database used to instantiate the theorems: one organization
"acme" owned by alice with members alice and bob; carol is registered but not
a member; project 1 holds task 1, project 2 has no tasks, project 3 holds
four tasks with statuses DONE, DONE, TODO, TODO. -/
def exDb : DB :=
  { users :=
      [ { id := 1, username := "alice", email := "a@x.com" },
        { id := 2, username := "bob", email := "b@x.com" },
        { id := 3, username := "carol", email := "c@x.com" } ],
    orgs := [exOrg],
    projects := [exProj1, exProj2, exProj3],
    tasks :=
      [ exTask1,
        { id := 2, projectId := 3, title := "T2", description := "",
          status := "DONE", assigneeEmail := none, dueDate := none },
        { id := 3, projectId := 3, title := "T3", description := "",
          status := "DONE", assigneeEmail := none, dueDate := none },
        { id := 4, projectId := 3, title := "T4", description := "",
          status := "TODO", assigneeEmail := none, dueDate := none },
        { id := 5, projectId := 3, title := "T5", description := "",
          status := "TODO", assigneeEmail := none, dueDate := none } ],
    nextUserId := 4, nextOrgId := 2, nextProjectId := 4, nextTaskId := 6 }

/-- find? skips a prefix on which the predicate is everywhere false. -/
theorem find?_append_right {α : Type} (p : α → Bool) (l1 l2 : List α)
    (h : ∀ x ∈ l1, p x = false) : (l1 ++ l2).find? p = l2.find? p := by
  induction l1 with
  | nil => rfl
  | cons a t ih =>
    have ha := h a (List.mem_cons_self a t)
    simp only [List.cons_append, List.find?, ha]
    exact ih (fun x hx => h x (List.mem_cons_of_mem a hx))

/-- Writing back an organization row leaves every row with a different id
unchanged. -/
theorem map_replace_id_eq (l : List Organization) (nid : Nat) (g : Organization)
    (h : ∀ x ∈ l, (x.id == nid) = false) :
    l.map (fun x => if x.id == nid then g else x) = l := by
  induction l with
  | nil => rfl
  | cons a t ih =>
    have ha := h a (List.mem_cons_self a t)
    simp only [List.map_cons, ha, Bool.false_eq_true, if_false]
    rw [ih (fun x hx => h x (List.mem_cons_of_mem a hx))]

/-- A filter by a predicate that is everywhere false is empty. -/
theorem filter_false_nil {α : Type} (p : α → Bool) (l : List α)
    (h : ∀ x ∈ l, p x = false) : l.filter p = [] := by
  induction l with
  | nil => rfl
  | cons a t ih =>
    have ha := h a (List.mem_cons_self a t)
    simp only [List.filter_cons, ha, Bool.false_eq_true, if_false]
    exact ih (fun x hx => h x (List.mem_cons_of_mem a hx))

/-- Register under a fresh username and a slug no organization carries:
creates the user, creates the organization owned by the new user, and adds
the new user as its only member. -/
theorem register_creates (db : DB) (u p e n : String)
    (hfresh : db.users.any (fun x => x.username == u) = false)
    (hnoorg : db.orgs.find? (fun o => o.slug == slugify n) = none)
    (hids : ∀ o ∈ db.orgs, (o.id == db.nextOrgId) = false) :
    Register.mutate db u p e n = .ok {
      db := { db with
        users := db.users ++ [{ id := db.nextUserId, username := u, email := e }],
        orgs := db.orgs ++ [{ id := db.nextOrgId, name := n, slug := slugify n,
                              owner := some db.nextUserId, members := [db.nextUserId] }],
        nextUserId := db.nextUserId + 1, nextOrgId := db.nextOrgId + 1 },
      userId := db.nextUserId, orgId := db.nextOrgId,
      token := get_token { id := db.nextUserId, username := u, email := e } } := by
  simp only [Register.mutate, hfresh, Bool.false_eq_true, if_false, DB.getOrgBySlug?,
    hnoorg, DB.saveOrg, List.map_append, List.map_cons, List.map_nil,
    beq_self_eq_true, if_true]
  rw [map_replace_id_eq db.orgs db.nextOrgId _ hids]
  rfl

/-- Register under a fresh username when an organization with the slug
already exists: creates the user and appends it to that organization's
members, leaving the owner field untouched. -/
theorem register_joins (db : DB) (u p e n : String) (org : Organization)
    (hfresh : db.users.any (fun x => x.username == u) = false)
    (hfound : db.orgs.find? (fun o => o.slug == slugify n) = some org)
    (hmem : org.members.contains db.nextUserId = false) :
    Register.mutate db u p e n = .ok {
      db := { db with
        users := db.users ++ [{ id := db.nextUserId, username := u, email := e }],
        nextUserId := db.nextUserId + 1,
        orgs := db.orgs.map (fun x => if x.id == org.id then
                  { org with members := org.members ++ [db.nextUserId] } else x) },
      userId := db.nextUserId, orgId := org.id,
      token := get_token { id := db.nextUserId, username := u, email := e } } := by
  simp only [Register.mutate, hfresh, Bool.false_eq_true, if_false, DB.getOrgBySlug?,
    hfound, DB.saveOrg, hmem]

/-- C1: two Register calls whose organization names slugify to the same slug
leave exactly one Organization with that slug: the first call creates it
owned by the first user with that user as sole member, the second call joins
it as a plain member (owner unchanged), and both users end up in members. -/
theorem register_same_slug_single_org
    (db : DB) (u1 p1 e1 n1 u2 p2 e2 n2 : String)
    (hslug : slugify n1 = slugify n2)
    (hfresh1 : db.users.any (fun x => x.username == u1) = false)
    (hfresh2 : db.users.any (fun x => x.username == u2) = false)
    (hne : u1 ≠ u2)
    (hnoorg : db.orgs.find? (fun o => o.slug == slugify n1) = none)
    (hids : ∀ o ∈ db.orgs, (o.id == db.nextOrgId) = false) :
    ∃ (r1 r2 : RegisterResult) (org1 org2 : Organization),
      Register.mutate db u1 p1 e1 n1 = .ok r1 ∧
      Register.mutate r1.db u2 p2 e2 n2 = .ok r2 ∧
      r2.orgId = r1.orgId ∧
      r1.db.getOrg? r1.orgId = some org1 ∧
      org1.slug = slugify n1 ∧ org1.owner = some r1.userId ∧
      org1.members = [r1.userId] ∧
      (r2.db.orgs.filter (fun o => o.slug == slugify n1)).length = 1 ∧
      r2.db.getOrg? r1.orgId = some org2 ∧
      org2.owner = org1.owner ∧
      r1.userId ∈ org2.members ∧ r2.userId ∈ org2.members ∧
      some r2.userId ≠ org2.owner := by
  have hforall : ∀ x ∈ db.orgs, (x.slug == slugify n1) = false := by
    intro x hx
    exact Bool.eq_false_iff.mpr (List.find?_eq_none.mp hnoorg x hx)
  have h1 := register_creates db u1 p1 e1 n1 hfresh1 hnoorg hids
  have hfresh2v :
      (db.users ++ [({ id := db.nextUserId, username := u1, email := e1 } : User)]).any
        (fun x => x.username == u2) = false := by
    rw [List.any_append]
    simp only [List.any_cons, List.any_nil, hfresh2, Bool.false_or, Bool.or_false]
    exact beq_eq_false_iff_ne.mpr (fun h => hne h)
  have hfoundv :
      (db.orgs ++ [({ id := db.nextOrgId, name := n1, slug := slugify n1,
                      owner := some db.nextUserId,
                      members := [db.nextUserId] } : Organization)]).find?
        (fun o => o.slug == slugify n2) =
      some { id := db.nextOrgId, name := n1, slug := slugify n1,
             owner := some db.nextUserId, members := [db.nextUserId] } := by
    rw [← hslug, find?_append_right _ _ _ hforall]
    exact List.find?_cons_of_pos _ (by simp)
  have hmemv : ([db.nextUserId].contains (db.nextUserId + 1)) = false := by
    simp only [List.contains_cons, List.contains_nil, Bool.or_false]
    exact beq_eq_false_iff_ne.mpr (Nat.succ_ne_self _)
  have h2 := register_joins
    { db with
      users := db.users ++ [({ id := db.nextUserId, username := u1, email := e1 } : User)],
      orgs := db.orgs ++ [({ id := db.nextOrgId, name := n1, slug := slugify n1,
                              owner := some db.nextUserId,
                              members := [db.nextUserId] } : Organization)],
      nextUserId := db.nextUserId + 1, nextOrgId := db.nextOrgId + 1 }
    u2 p2 e2 n2
    ({ id := db.nextOrgId, name := n1, slug := slugify n1,
       owner := some db.nextUserId, members := [db.nextUserId] } : Organization)
    hfresh2v hfoundv hmemv
  refine ⟨_, _,
    ({ id := db.nextOrgId, name := n1, slug := slugify n1,
       owner := some db.nextUserId, members := [db.nextUserId] } : Organization),
    ({ id := db.nextOrgId, name := n1, slug := slugify n1,
       owner := some db.nextUserId,
       members := [db.nextUserId, db.nextUserId + 1] } : Organization),
    h1, h2, rfl, ?_, rfl, rfl, rfl, ?_, ?_, rfl, ?_, ?_, ?_⟩
  · show (db.orgs ++ [({ id := db.nextOrgId, name := n1, slug := slugify n1,
                          owner := some db.nextUserId,
                          members := [db.nextUserId] } : Organization)]).find?
        (fun o => o.id == db.nextOrgId) = some _
    rw [find?_append_right _ _ _ hids]
    exact List.find?_cons_of_pos _ (by simp)
  · show (((db.orgs ++ [({ id := db.nextOrgId, name := n1, slug := slugify n1,
                            owner := some db.nextUserId,
                            members := [db.nextUserId] } : Organization)]).map
        (fun x => if x.id == db.nextOrgId then
          { id := db.nextOrgId, name := n1, slug := slugify n1,
            owner := some db.nextUserId,
            members := [db.nextUserId, db.nextUserId + 1] } else x)).filter
        (fun o => o.slug == slugify n1)).length = 1
    rw [List.map_append, map_replace_id_eq db.orgs db.nextOrgId _ hids]
    simp only [List.map_cons, List.map_nil, beq_self_eq_true, if_true, List.filter_append,
      filter_false_nil _ _ hforall, List.nil_append]
    simp [List.filter_cons]
  · show ((db.orgs ++ [({ id := db.nextOrgId, name := n1, slug := slugify n1,
                           owner := some db.nextUserId,
                           members := [db.nextUserId] } : Organization)]).map
        (fun x => if x.id == db.nextOrgId then
          { id := db.nextOrgId, name := n1, slug := slugify n1,
            owner := some db.nextUserId,
            members := [db.nextUserId, db.nextUserId + 1] } else x)).find?
        (fun o => o.id == db.nextOrgId) = some _
    rw [List.map_append, map_replace_id_eq db.orgs db.nextOrgId _ hids]
    simp only [List.map_cons, List.map_nil, beq_self_eq_true, if_true]
    rw [find?_append_right _ _ _ hids]
    exact List.find?_cons_of_pos _ (by simp)
  · show db.nextUserId ∈ [db.nextUserId, db.nextUserId + 1]
    exact List.mem_cons_self _ _
  · show db.nextUserId + 1 ∈ [db.nextUserId, db.nextUserId + 1]
    exact List.mem_cons_of_mem _ (List.mem_cons_self _ _)
  · show some (db.nextUserId + 1) ≠ some db.nextUserId
    intro h
    exact Nat.succ_ne_self db.nextUserId (Option.some.inj h)

/-- C9: Register on an already-taken username fails with the duplicate
error and leaves the database untouched: no user or organization is created
or modified and no token is issued. -/
theorem register_duplicate_username (db : DB) (u p e n : String)
    (h : db.users.any (fun x => x.username == u) = true) :
    Register.mutate db u p e n = .error (.exc "Username already exists") ∧
    Register.run db u p e n = db := by
  have hm : Register.mutate db u p e n = .error (.exc "Username already exists") := by
    simp only [Register.mutate, h, if_true]
  exact ⟨hm, by simp only [Register.run, hm]⟩

/-- C2: the project query raises the not-logged-in error for an anonymous
actor, returns null for an authenticated actor on a missing id, raises the
distinct Access Denied error for an authenticated non-member, and returns
the project for an authenticated member. -/
theorem resolve_project_trichotomy (db : DB)
    (pidMissing pid uidNonMember uidMember : Nat) (proj : Project) (org : Organization)
    (hmiss : db.getProject? pidMissing = none)
    (hp : db.getProject? pid = some proj)
    (ho : db.getOrg? proj.organizationId = some org)
    (hnm : org.members.contains uidNonMember = false)
    (hm : org.members.contains uidMember = true) :
    Query.resolve_project db none pid = .error (.exc "Not logged in") ∧
    Query.resolve_project db (some uidNonMember) pidMissing = .ok none ∧
    Query.resolve_project db (some uidNonMember) pid = .error (.exc "Access Denied") ∧
    Query.resolve_project db (some uidMember) pid = .ok (some proj) ∧
    (Err.exc "Access Denied") ≠ (Err.exc "Not logged in") := by
  refine ⟨rfl, ?_, ?_, ?_, by decide⟩
  · simp only [Query.resolve_project, hmiss]
  · simp only [Query.resolve_project, hp, ho, hnm, Bool.false_eq_true, if_false]
  · simp only [Query.resolve_project, hp, ho, hm, if_true]

/-- C3: an UpdateTask call carrying assignee_email on a task whose
organization has an owner, issued by an actor other than that owner, fails
with the admin-only error and leaves the database (hence the task and every
one of its fields) exactly as it was: nothing is persisted. -/
theorem updateTask_assign_denied (db : DB) (actor : Option Nat) (tid : Nat)
    (task : Task) (proj : Project) (org : Organization) (ownerId : Nat) (ae : String)
    (status description due_date : Option String)
    (ht : db.getTask? tid = some task)
    (hp : db.getProject? task.projectId = some proj)
    (ho : db.getOrg? proj.organizationId = some org)
    (hw : org.owner = some ownerId)
    (hactor : actor ≠ some ownerId) :
    UpdateTask.mutate db actor tid status description (some ae) due_date =
      .error (.exc "Only the Organization Admin can assign tasks.") ∧
    UpdateTask.run db actor tid status description (some ae) due_date = db := by
  have hb : (actor == some ownerId) = false := beq_eq_false_iff_ne.mpr hactor
  have hm : UpdateTask.mutate db actor tid status description (some ae) due_date =
      .error (.exc "Only the Organization Admin can assign tasks.") := by
    simp only [UpdateTask.mutate, ht, hp, ho, hw, hb, Bool.false_eq_true, if_false]
  exact ⟨hm, by simp only [UpdateTask.run, hm]⟩

/-- C5: an UpdateTask call providing only status = DONE writes DONE into the
task's status and leaves its description, assignee email and due date
exactly as they were. -/
theorem updateTask_status_only_frame (db : DB) (actor : Option Nat) (tid : Nat)
    (task : Task) (ht : db.getTask? tid = some task) :
    ∃ t2 : Task,
      UpdateTask.mutate db actor tid (some "DONE") none none none =
        .ok (db.saveTask t2) ∧
      t2.status = "DONE" ∧ t2.description = task.description ∧
      t2.assigneeEmail = task.assigneeEmail ∧ t2.dueDate = task.dueDate := by
  refine ⟨{ task with status := "DONE" }, ?_, rfl, rfl, rfl, rfl⟩
  simp [UpdateTask.mutate, ht]

/-- C7: UpdateTask treats an empty-string status as not provided — the task
is written back unchanged, so status can never become the empty string —
while an empty-string description is applied and overwrites the field. -/
theorem updateTask_empty_string_semantics (db : DB) (actor : Option Nat) (tid : Nat)
    (task : Task) (ht : db.getTask? tid = some task) :
    UpdateTask.mutate db actor tid (some "") none none none =
      .ok (db.saveTask task) ∧
    (∃ t2 : Task,
      UpdateTask.mutate db actor tid none (some "") none none =
        .ok (db.saveTask t2) ∧
      t2.description = "" ∧ t2.status = task.status ∧
      t2.assigneeEmail = task.assigneeEmail ∧ t2.dueDate = task.dueDate) := by
  constructor
  · simp [UpdateTask.mutate, ht]
  · refine ⟨{ task with description := "" }, ?_, rfl, rfl, rfl, rfl⟩
    simp [UpdateTask.mutate, ht]

/-- C6 as stated fails: on the concrete database the task's status is TODO,
the call provides the explicit non-None status value given by the empty
string, yet after the call the status is still TODO, not that value. -/
theorem updateTask_empty_status_not_written :
    ((UpdateTask.run exDb (some 1) 1 (some "") none none none).getTask? 1).map
      Task.status = some "TODO" ∧ ("TODO" : String) ≠ "" := by decide

/-- C6 amended: for every provided non-empty status string, UpdateTask sets
the task's status to exactly that value, whatever the previous status was —
no transition restriction (the empty string alone is treated as absent). -/
theorem updateTask_sets_nonempty_status (db : DB) (actor : Option Nat) (tid : Nat)
    (task : Task) (s : String) (ht : db.getTask? tid = some task) (hs : s ≠ "") :
    ∃ t2 : Task,
      UpdateTask.mutate db actor tid (some s) none none none =
        .ok (db.saveTask t2) ∧ t2.status = s := by
  have hb : (s == "") = false := beq_eq_false_iff_ne.mpr hs
  refine ⟨{ task with status := s }, ?_, rfl⟩
  simp only [UpdateTask.mutate, ht, hb, Bool.false_eq_true, if_false]

/-- C8: UpdateProject consults no actor at all: for any actor, anonymous
included, it overwrites the status of an existing project with the given
value and persists it, every other field unchanged. -/
theorem updateProject_unconditional (db : DB) (actor : Option Nat) (pid : Nat)
    (proj : Project) (s : String) (hp : db.getProject? pid = some proj) :
    ∃ p2 : Project,
      UpdateProject.mutate db actor pid s = .ok (db.saveProject p2) ∧
      p2.status = s ∧ p2.id = proj.id ∧ p2.organizationId = proj.organizationId ∧
      p2.name = proj.name ∧ p2.description = proj.description ∧
      p2.dueDate = proj.dueDate := by
  refine ⟨{ proj with status := s }, ?_, rfl, rfl, rfl, rfl, rfl, rfl⟩
  simp only [UpdateProject.mutate, hp]

/-- C10: CreateTask consults no actor at all: for any actor, anonymous
included, it succeeds on an existing project and appends a new task that
belongs to that project. -/
theorem createTask_no_auth (db : DB) (actor : Option Nat) (pid : Nat)
    (proj : Project) (title : String) (hp : db.getProject? pid = some proj) :
    CreateTask.mutate db actor pid title =
      .ok ({ db with
              tasks := db.tasks ++ [({ id := db.nextTaskId, projectId := proj.id,
                                       title := title, description := "",
                                       status := taskDefaultStatus,
                                       assigneeEmail := none,
                                       dueDate := none } : Task)],
              nextTaskId := db.nextTaskId + 1 }, db.nextTaskId) := by
  simp only [CreateTask.mutate, hp]

/-- Written from the spec's words, for comparison with the resolver:
completion rate is the percentage of tasks whose status is DONE, and 0.0
when there are zero tasks (never a division by zero). -/
def spec_completionRate (statuses : List String) : Rat :=
  if statuses.length = 0 then 0
  else ((statuses.count "DONE" : Rat) / (statuses.length : Rat)) * 100

/-- C4: the resolver computes exactly the spec's formula over the project's
task statuses; in particular it is 0 on a project with zero tasks and 50 on
a project whose task statuses are DONE, DONE, TODO, TODO. -/
theorem completion_rate_correct (db : DB) (p : Project) :
    ProjectType.resolve_completion_rate db p =
      spec_completionRate ((db.projectTasks p).map Task.status) ∧
    (db.projectTasks p = [] → ProjectType.resolve_completion_rate db p = 0) ∧
    ((db.projectTasks p).map Task.status = ["DONE", "DONE", "TODO", "TODO"] →
      ProjectType.resolve_completion_rate db p = 50) := by
  have hcnt : ((db.projectTasks p).map Task.status).count "DONE" =
      ((db.projectTasks p).filter (fun t => t.status == "DONE")).length := by
    rw [List.count_eq_countP, List.countP_map, List.countP_eq_length_filter]
    rfl
  refine ⟨?_, ?_, ?_⟩
  · simp only [ProjectType.resolve_completion_rate, spec_completionRate,
      List.length_map, hcnt, beq_iff_eq]
  · intro h
    simp only [ProjectType.resolve_completion_rate, h, List.length_nil]
    rfl
  · intro h
    have hlen : (db.projectTasks p).length = 4 := by
      have h2 := congrArg List.length h
      simpa using h2
    have hc4 : ((db.projectTasks p).filter (fun t => t.status == "DONE")).length = 2 := by
      have h2 : ((db.projectTasks p).map Task.status).count "DONE" = 2 := by
        rw [h]; rfl
      rw [hcnt] at h2
      exact h2
    simp only [ProjectType.resolve_completion_rate, hlen, hc4]
    norm_num

/-- C1 witness: registering dave under "Globex" and erin under "globex!"
(identical slugs) on the concrete database. -/
theorem register_same_slug_single_org_witness :
    ∃ (r1 r2 : RegisterResult) (org1 org2 : Organization),
      Register.mutate exDb "dave" "pw" "d@x.com" "Globex" = .ok r1 ∧
      Register.mutate r1.db "erin" "pw" "e@x.com" "globex!" = .ok r2 ∧
      r2.orgId = r1.orgId ∧
      r1.db.getOrg? r1.orgId = some org1 ∧
      org1.slug = slugify "Globex" ∧ org1.owner = some r1.userId ∧
      org1.members = [r1.userId] ∧
      (r2.db.orgs.filter (fun o => o.slug == slugify "Globex")).length = 1 ∧
      r2.db.getOrg? r1.orgId = some org2 ∧
      org2.owner = org1.owner ∧
      r1.userId ∈ org2.members ∧ r2.userId ∈ org2.members ∧
      some r2.userId ≠ org2.owner :=
  register_same_slug_single_org exDb "dave" "pw" "d@x.com" "Globex"
    "erin" "pw" "e@x.com" "globex!"
    (by decide) (by decide) (by decide) (by decide) (by decide) (by decide)

/-- C9 witness: registering a second "alice" fails and changes nothing. -/
theorem register_duplicate_username_witness :
    Register.mutate exDb "alice" "pw" "a2@x.com" "Other" =
      .error (.exc "Username already exists") ∧
    Register.run exDb "alice" "pw" "a2@x.com" "Other" = exDb :=
  register_duplicate_username exDb "alice" "pw" "a2@x.com" "Other" (by decide)

/-- C2 witness: the three failure/null outcomes and the member success on
the concrete database (carol, user 3, is not a member of acme). -/
theorem resolve_project_trichotomy_witness :
    Query.resolve_project exDb none 1 = .error (.exc "Not logged in") ∧
    Query.resolve_project exDb (some 3) 99 = .ok none ∧
    Query.resolve_project exDb (some 3) 1 = .error (.exc "Access Denied") ∧
    Query.resolve_project exDb (some 1) 1 = .ok (some exProj1) ∧
    (Err.exc "Access Denied") ≠ (Err.exc "Not logged in") :=
  resolve_project_trichotomy exDb 99 1 3 1 exProj1 exOrg
    (by decide) (by decide) (by decide) (by decide) (by decide)

/-- C3 witness: bob (user 2, not the owner) providing an assignee together
with every other field is denied and the database is unchanged. -/
theorem updateTask_assign_denied_witness :
    UpdateTask.mutate exDb (some 2) 1 (some "DONE") (some "newdesc")
      (some "x@y.com") (some "2025-01-01") =
      .error (.exc "Only the Organization Admin can assign tasks.") ∧
    UpdateTask.run exDb (some 2) 1 (some "DONE") (some "newdesc")
      (some "x@y.com") (some "2025-01-01") = exDb :=
  updateTask_assign_denied exDb (some 2) 1 exTask1 exProj1 exOrg 1 "x@y.com"
    (some "DONE") (some "newdesc") (some "2025-01-01")
    (by decide) (by decide) (by decide) (by decide) (by decide)

/-- C5 witness: setting only status = DONE on task 1 keeps its description
"d" and its empty assignee and due date. -/
theorem updateTask_status_only_frame_witness :
    ∃ t2 : Task,
      UpdateTask.mutate exDb (some 1) 1 (some "DONE") none none none =
        .ok (exDb.saveTask t2) ∧
      t2.status = "DONE" ∧ t2.description = "d" ∧
      t2.assigneeEmail = none ∧ t2.dueDate = none :=
  updateTask_status_only_frame exDb (some 1) 1 exTask1 (by decide)

/-- C7 witness: an empty-string status writes task 1 back unchanged, while
an empty-string description empties the description field. -/
theorem updateTask_empty_string_semantics_witness :
    UpdateTask.mutate exDb (some 1) 1 (some "") none none none =
      .ok (exDb.saveTask exTask1) ∧
    (∃ t2 : Task,
      UpdateTask.mutate exDb (some 1) 1 none (some "") none none =
        .ok (exDb.saveTask t2) ∧
      t2.description = "" ∧ t2.status = "TODO" ∧
      t2.assigneeEmail = none ∧ t2.dueDate = none) :=
  updateTask_empty_string_semantics exDb (some 1) 1 exTask1 (by decide)

/-- C6 amended witness: the non-empty status "BLOCKED" is written verbatim
over task 1's TODO. -/
theorem updateTask_sets_nonempty_status_witness :
    ∃ t2 : Task,
      UpdateTask.mutate exDb (some 1) 1 (some "BLOCKED") none none none =
        .ok (exDb.saveTask t2) ∧ t2.status = "BLOCKED" :=
  updateTask_sets_nonempty_status exDb (some 1) 1 exTask1 "BLOCKED"
    (by decide) (by decide)

/-- C8 witness: an anonymous actor overwrites project 1's status. -/
theorem updateProject_unconditional_witness :
    ∃ p2 : Project,
      UpdateProject.mutate exDb none 1 "closed" = .ok (exDb.saveProject p2) ∧
      p2.status = "closed" ∧ p2.id = 1 ∧ p2.organizationId = 1 ∧
      p2.name = "Site" ∧ p2.description = "" ∧ p2.dueDate = none :=
  updateProject_unconditional exDb none 1 exProj1 "closed" (by decide)

/-- C10 witness: an anonymous actor creates a task under project 1. -/
theorem createTask_no_auth_witness :
    CreateTask.mutate exDb none 1 "New" =
      .ok ({ exDb with
              tasks := exDb.tasks ++ [({ id := 6, projectId := 1, title := "New",
                                         description := "", status := "TODO",
                                         assigneeEmail := none,
                                         dueDate := none } : Task)],
              nextTaskId := 7 }, 6) :=
  createTask_no_auth exDb none 1 exProj1 "New" (by decide)

/-- C4 witness: project 2 has zero tasks and rate 0; project 3's statuses
are DONE, DONE, TODO, TODO and its rate is 50. -/
theorem completion_rate_correct_witness :
    ProjectType.resolve_completion_rate exDb exProj2 = 0 ∧
    ProjectType.resolve_completion_rate exDb exProj3 = 50 :=
  ⟨(completion_rate_correct exDb exProj2).2.1 (by decide),
   (completion_rate_correct exDb exProj3).2.2 (by decide)⟩

end OrgFlow
